import Mathlib

/-!
Verification development for the `ifpa-health` repository.

The two pure computational engines are embedded shallowly:

* `src/lib/health-score.ts` — the composite health-score engine
  (`interpolate`, `getBand`, `computeHealthScore`).
* the forecaster module — seasonal-ratio forecasting
  (`computeMonthlyWeights`, `computeForecast`, `computeTrendLine`).
* the admin calibration route — MAE ranking of methodology versions.

JS `number`s are modelled as exact rationals `ℚ` (the algorithms are
plain field arithmetic); `Math.sqrt` is modelled by `Real.sqrt`, so the
few standard-deviation-valued quantities live in `ℝ`.  `Math.round` is
half-up rounding, which is exactly Mathlib's `round`.  String labels
built with `toFixed` (pure display formatting, `label` fields) are not
modelled; no verified property mentions them.
-/

namespace IFPA

-- ---------------------------------------------------------------------------
-- Shared numeric utilities (from src/lib/health-score.ts and the forecaster)
-- ---------------------------------------------------------------------------

/-- `clamp(value, min = 0, max = 100)` from src/lib/health-score.ts:
`Math.max(min, Math.min(max, value))`. -/
def clamp (value : ℚ) : ℚ := max 0 (min 100 value)

/-- `round2(value)` from src/lib/health-score.ts:
`Math.round(value * 100) / 100`; `Math.round` rounds half up, as does
Mathlib's `round`. -/
def round2 (value : ℚ) : ℚ := (round (value * 100) : ℚ) / 100

/-- `mean(values)` from the forecaster: `0` for an empty list, else
`sum / length`. -/
def mean (values : List ℚ) : ℚ :=
  if values.length = 0 then 0 else values.sum / (values.length : ℚ)

/-- The population variance `Σ (v - mean)² / length` computed inside
`stddev` in the forecaster. -/
def variancePop (values : List ℚ) : ℚ :=
  (values.map (fun v => (v - mean values) ^ 2)).sum / (values.length : ℚ)

/-- `stddev(values)` from the forecaster: `0` when fewer than two values,
else the square root of the population variance (`Math.sqrt`). -/
noncomputable def stddev (values : List ℚ) : ℝ :=
  if values.length < 2 then 0 else Real.sqrt (variancePop values)

-- ---------------------------------------------------------------------------
-- Health-score engine: types (src/lib/health-score.ts)
-- ---------------------------------------------------------------------------

/-- `Band` from src/lib/health-score.ts. -/
inductive Band
  | thriving
  | healthy
  | stable
  | concerning
  | critical
deriving DecidableEq, Repr

/-- A map keyed by the six component names (`growth`, `attendance`,
`retention`, `momentum`, `diversity`, `youth`).  `Record<string, number>`
objects in the source always carry exactly these six keys
(`componentScores`, `componentRawValues`, merged weights, `deltas`,
`sensitivity`). -/
structure ComponentMap where
  growth : ℚ
  attendance : ℚ
  retention : ℚ
  momentum : ℚ
  diversity : ℚ
  youth : ℚ
deriving DecidableEq, Repr

/-- Sum of a `ComponentMap`'s values, in the source's key order
(`Object.values(...).reduce((sum, d) => sum + d, 0)`). -/
def ComponentMap.total (m : ComponentMap) : ℚ :=
  m.growth + m.attendance + m.retention + m.momentum + m.diversity + m.youth

/-- Caller-supplied partial weight override (`customWeights?`): each of the
six component keys may or may not be present. -/
structure WeightOverrides where
  growth : Option ℚ
  attendance : Option ℚ
  retention : Option ℚ
  momentum : Option ℚ
  diversity : Option ℚ
  youth : Option ℚ
deriving DecidableEq, Repr

/-- `{ ...DEFAULT_WEIGHTS, ...customWeights }`: per-key merge of the
overrides over the base map. -/
def mergeWeights (base : ComponentMap) (o : WeightOverrides) : ComponentMap :=
  ⟨o.growth.getD base.growth, o.attendance.getD base.attendance,
   o.retention.getD base.retention, o.momentum.getD base.momentum,
   o.diversity.getD base.diversity, o.youth.getD base.youth⟩

/-- `DEFAULT_WEIGHTS` from src/lib/health-score.ts. -/
def DEFAULT_WEIGHTS : ComponentMap :=
  ⟨25/100, 20/100, 20/100, 15/100, 10/100, 10/100⟩

/-- `Breakpoints`: array of `[input_value, output_score]` pairs. -/
abbrev Breakpoints := List (ℚ × ℚ)

/-- The per-component breakpoint tables (`Record<string, Breakpoints>` with
the six component keys). -/
structure BreakpointMap where
  growth : Breakpoints
  attendance : Breakpoints
  retention : Breakpoints
  momentum : Breakpoints
  diversity : Breakpoints
  youth : Breakpoints
deriving DecidableEq, Repr

/-- Caller-supplied partial breakpoint override (`customBreakpoints?`). -/
structure BreakpointOverrides where
  growth : Option Breakpoints
  attendance : Option Breakpoints
  retention : Option Breakpoints
  momentum : Option Breakpoints
  diversity : Option Breakpoints
  youth : Option Breakpoints
deriving DecidableEq, Repr

/-- `{ ...DEFAULT_BREAKPOINTS, ...customBreakpoints }`. -/
def mergeBreakpoints (base : BreakpointMap) (o : BreakpointOverrides) :
    BreakpointMap :=
  ⟨o.growth.getD base.growth, o.attendance.getD base.attendance,
   o.retention.getD base.retention, o.momentum.getD base.momentum,
   o.diversity.getD base.diversity, o.youth.getD base.youth⟩

/-- `DEFAULT_BREAKPOINTS` from src/lib/health-score.ts. -/
def DEFAULT_BREAKPOINTS : BreakpointMap :=
  ⟨[(-20, 0), (0, 50), (20, 100)],
   [(15, 0), (20, 55), (23, 85), (25, 100)],
   [(20, 0), (30, 50), (42, 85), (50, 100)],
   [(-15, 0), (0, 50), (15, 100)],
   [(50, 100), (70, 50), (90, 0)],
   [(5, 0), (13, 50), (30, 100)]⟩

/-- `HealthScoreInput` from src/lib/health-score.ts. -/
structure HealthScoreInput where
  tournament_yoy_pct : ℚ
  entry_yoy_pct : ℚ
  avg_attendance : ℚ
  retention_rate : ℚ
  monthly_momentum : List ℚ
  us_concentration_pct : ℚ
  country_count : ℚ
  youth_pct : ℚ
deriving DecidableEq, Repr

-- ---------------------------------------------------------------------------
-- Health-score engine: interpolation (src/lib/health-score.ts)
-- ---------------------------------------------------------------------------

/-- The `for` loop inside `interpolate`: scan consecutive breakpoint pairs,
returning the clamped lerp of the first pair `(x0,y0),(x1,y1)` with
`x0 ≤ value ≤ x1`, `none` if no pair matches. -/
def lerpLoop (value : ℚ) : Breakpoints → Option ℚ
  | p :: q :: rest =>
      if p.1 ≤ value ∧ value ≤ q.1 then
        some (clamp (p.2 + (value - p.1) / (q.1 - p.1) * (q.2 - p.2)))
      else
        lerpLoop value (q :: rest)
  | _ => none

/-- `interpolate(value, breakpoints)` from src/lib/health-score.ts. -/
def interpolate (value : ℚ) : Breakpoints → ℚ
  | [] => 0
  | p :: rest =>
      if value ≤ p.1 then clamp p.2
      else if ((p :: rest).getLast (List.cons_ne_nil p rest)).1 ≤ value then
        clamp ((p :: rest).getLast (List.cons_ne_nil p rest)).2
      else
        match lerpLoop value (p :: rest) with
        | some r => r
        | none => clamp ((p :: rest).getLast (List.cons_ne_nil p rest)).2

/-- `getBand(score)` from src/lib/health-score.ts. -/
def getBand (score : ℚ) : Band :=
  if 80 ≤ score then .thriving
  else if 65 ≤ score then .healthy
  else if 50 ≤ score then .stable
  else if 35 ≤ score then .concerning
  else .critical

-- ---------------------------------------------------------------------------
-- Health-score engine: computeHealthScore (src/lib/health-score.ts)
-- ---------------------------------------------------------------------------

/-- Step 1 raw values: growth is the mean of the two YoY figures, momentum
the mean of the momentum series (0 when empty), diversity the 70/30 blend
of the interpolated (inverted) US-concentration score and the country-count
score `min(100, country_count * 3.33)`. -/
def rawValues (input : HealthScoreInput) (bps : BreakpointMap) : ComponentMap :=
  ⟨(input.tournament_yoy_pct + input.entry_yoy_pct) / 2,
   input.avg_attendance,
   input.retention_rate,
   if input.monthly_momentum.length > 0 then
     input.monthly_momentum.sum / (input.monthly_momentum.length : ℚ)
   else 0,
   7/10 * interpolate input.us_concentration_pct bps.diversity
     + 3/10 * min 100 (input.country_count * (333/100)),
   input.youth_pct⟩

/-- Step 1 component scores (`componentScores` in the source): every raw
value except diversity goes through `interpolate`; diversity is clamped. -/
def componentScoresOf (input : HealthScoreInput) (bps : BreakpointMap) :
    ComponentMap :=
  let raw := rawValues input bps
  ⟨interpolate raw.growth bps.growth,
   interpolate raw.attendance bps.attendance,
   interpolate raw.retention bps.retention,
   interpolate raw.momentum bps.momentum,
   clamp raw.diversity,
   interpolate raw.youth bps.youth⟩

/-- The weighted sum `Object.keys(weights).reduce((sum, key) =>
sum + componentScores[key] * weights[key], 0)` over the six keys. -/
def weightedSum (scores weights : ComponentMap) : ℚ :=
  scores.growth * weights.growth + scores.attendance * weights.attendance
    + scores.retention * weights.retention + scores.momentum * weights.momentum
    + scores.diversity * weights.diversity + scores.youth * weights.youth

/-- Step 4 sensitivity deltas: for each key the composite is recomputed with
that key's score nudged up by 10 (capped at 100) and down by 10 (floored
at 0), and the absolute difference taken. -/
def deltasOf (scores weights : ComponentMap) : ComponentMap :=
  ⟨|weightedSum { scores with growth := min 100 (scores.growth + 10) } weights
      - weightedSum { scores with growth := max 0 (scores.growth - 10) } weights|,
   |weightedSum { scores with attendance := min 100 (scores.attendance + 10) } weights
      - weightedSum { scores with attendance := max 0 (scores.attendance - 10) } weights|,
   |weightedSum { scores with retention := min 100 (scores.retention + 10) } weights
      - weightedSum { scores with retention := max 0 (scores.retention - 10) } weights|,
   |weightedSum { scores with momentum := min 100 (scores.momentum + 10) } weights
      - weightedSum { scores with momentum := max 0 (scores.momentum - 10) } weights|,
   |weightedSum { scores with diversity := min 100 (scores.diversity + 10) } weights
      - weightedSum { scores with diversity := max 0 (scores.diversity - 10) } weights|,
   |weightedSum { scores with youth := min 100 (scores.youth + 10) } weights
      - weightedSum { scores with youth := max 0 (scores.youth - 10) } weights|⟩

/-- Step 4 normalisation: each delta over the total, as a 2-decimal
percentage; all zeros when the total delta is not positive. -/
def sensitivityOf (scores weights : ComponentMap) : ComponentMap :=
  let d := deltasOf scores weights
  let t := d.total
  ⟨if 0 < t then round2 (d.growth / t * 100) else 0,
   if 0 < t then round2 (d.attendance / t * 100) else 0,
   if 0 < t then round2 (d.retention / t * 100) else 0,
   if 0 < t then round2 (d.momentum / t * 100) else 0,
   if 0 < t then round2 (d.diversity / t * 100) else 0,
   if 0 < t then round2 (d.youth / t * 100) else 0⟩

/-- `ComponentScore` from src/lib/health-score.ts (the display-only `label`
string, built with `toFixed`, is not modelled). -/
structure ComponentScore where
  score : ℚ
  weight : ℚ
  raw_value : ℚ
deriving DecidableEq, Repr

/-- The `components` record of a result, keyed by the six names. -/
structure ComponentsMap where
  growth : ComponentScore
  attendance : ComponentScore
  retention : ComponentScore
  momentum : ComponentScore
  diversity : ComponentScore
  youth : ComponentScore
deriving DecidableEq, Repr

/-- `HealthScoreResult` from src/lib/health-score.ts. -/
structure HealthScoreResult where
  composite_score : ℚ
  band : Band
  components : ComponentsMap
  sensitivity : ComponentMap
  methodology_version : ℕ
deriving DecidableEq, Repr

/-- `computeHealthScore(input, methodologyVersion, customWeights,
customBreakpoints)` from src/lib/health-score.ts. -/
def computeHealthScore (input : HealthScoreInput) (methodologyVersion : ℕ)
    (customWeights : WeightOverrides) (customBreakpoints : BreakpointOverrides) :
    HealthScoreResult :=
  let weights := mergeWeights DEFAULT_WEIGHTS customWeights
  let bps := mergeBreakpoints DEFAULT_BREAKPOINTS customBreakpoints
  let scores := componentScoresOf input bps
  let raw := rawValues input bps
  let components : ComponentsMap :=
    ⟨⟨round2 scores.growth, weights.growth, round2 raw.growth⟩,
     ⟨round2 scores.attendance, weights.attendance, round2 raw.attendance⟩,
     ⟨round2 scores.retention, weights.retention, round2 raw.retention⟩,
     ⟨round2 scores.momentum, weights.momentum, round2 raw.momentum⟩,
     ⟨round2 scores.diversity, weights.diversity, round2 raw.diversity⟩,
     ⟨round2 scores.youth, weights.youth, round2 raw.youth⟩⟩
  let compositeScore := weightedSum scores weights
  { composite_score := round2 (clamp compositeScore)
    band := getBand compositeScore
    components := components
    sensitivity := sensitivityOf scores weights
    methodology_version := methodologyVersion }

-- ---------------------------------------------------------------------------
-- Forecast engine: types (forecaster module)
-- ---------------------------------------------------------------------------

/-- `AnnualData` from the forecaster: one year's totals. -/
structure AnnualData where
  year : ℤ
  tournaments : ℚ
  entries : ℚ
deriving DecidableEq, Repr

/-- `MonthlyData` from the forecaster: one (year, month) event count;
`month` is 1-12. -/
structure MonthlyData where
  year : ℤ
  month : ℕ
  event_count : ℚ
deriving DecidableEq, Repr

/-- `MonthlyWeights` from the forecaster.  `weight_std` values come out of
`stddev`, hence live in `ℝ`. -/
structure MonthlyWeights where
  tournament_weights : List ℚ
  entry_weights : List ℚ
  weight_std : List ℝ

/-- `TrendReference` from the forecaster. -/
structure TrendReference where
  slope : ℚ
  intercept : ℚ
  r_squared : ℚ
  projected_value : ℤ
deriving DecidableEq, Repr

/-- `ForecastResult` from the forecaster.  All projection and
confidence-interval fields are `Math.round`ed integers. -/
structure ForecastResult where
  target_year : ℤ
  months_of_data : ℕ
  projected_tournaments : ℤ
  projected_entries : ℤ
  ci_68_low_tournaments : ℤ
  ci_68_high_tournaments : ℤ
  ci_95_low_tournaments : ℤ
  ci_95_high_tournaments : ℤ
  ci_68_low_entries : ℤ
  ci_68_high_entries : ℤ
  ci_95_low_entries : ℤ
  ci_95_high_entries : ℤ
  method : String
  trend_reference : Option TrendReference

-- ---------------------------------------------------------------------------
-- Forecast engine: lookup helpers (forecaster module)
-- ---------------------------------------------------------------------------

/-- Whether `buildMonthlyLookup`'s map has an entry for `y` (some record of
that year exists). -/
def hasMonthlyData (monthlyData : List MonthlyData) (y : ℤ) : Bool :=
  monthlyData.any (fun d => d.year = y)

/-- The 12-entry array `buildMonthlyLookup` associates to a year: it starts
as twelve zeros and accumulates `+= event_count` at index `month - 1`, so
entry `m` (0-based) is the sum of the counts of records `(y, m+1)`;
months with no record stay 0. -/
def monthCounts (monthlyData : List MonthlyData) (y : ℤ) : List ℚ :=
  (List.range 12).map (fun m =>
    ((monthlyData.filter (fun d => d.year = y ∧ d.month = m + 1)).map
      (fun d => d.event_count)).sum)

/-- `buildMonthlyLookup(monthlyData).get(y)`: `none` when no record of year
`y` exists, else the accumulated 12-entry array. -/
def monthlyLookup (monthlyData : List MonthlyData) (y : ℤ) :
    Option (List ℚ) :=
  if hasMonthlyData monthlyData y then some (monthCounts monthlyData y)
  else none

/-- `buildAnnualLookup(annualData).get(y)`: `Map.set` lets the last record
of a year win. -/
def annualLookup (annualData : List AnnualData) (y : ℤ) : Option AnnualData :=
  (annualData.filter (fun d => d.year = y)).getLast?

-- ---------------------------------------------------------------------------
-- Forecast engine: computeMonthlyWeights (forecaster module)
-- ---------------------------------------------------------------------------

/-- `DEFAULT_REFERENCE_YEARS` from the forecaster. -/
def DEFAULT_REFERENCE_YEARS : List ℤ := [2019, 2022, 2023, 2024, 2025]

/-- The reference years the `computeMonthlyWeights` loop does not `continue`
past: present in both lookups and with a nonzero annual tournament total. -/
def qualifyingRefYears (annualData : List AnnualData)
    (monthlyData : List MonthlyData) (referenceYears : List ℤ) : List ℤ :=
  referenceYears.filter (fun y =>
    (annualLookup annualData y).isSome ∧ hasMonthlyData monthlyData y ∧
      (annualLookup annualData y).elim 0 (fun a => a.tournaments) ≠ 0)

/-- `tournamentFractions[m]` from `computeMonthlyWeights`: for month `m`
(0-based), the fraction `monthly[m] / annual.tournaments` of each
qualifying reference year, in reference-year order. -/
def tournamentFractions (annualData : List AnnualData)
    (monthlyData : List MonthlyData) (referenceYears : List ℤ) :
    List (List ℚ) :=
  (List.range 12).map (fun m =>
    (qualifyingRefYears annualData monthlyData referenceYears).map (fun y =>
      ((monthCounts monthlyData y).getD m 0) /
        ((annualLookup annualData y).elim 0 (fun a => a.tournaments))))

/-- `entryFractions[m]` from `computeMonthlyWeights`: the same numerator and
denominator as the tournament fraction when the year's entries are
positive, else `0`. -/
def entryFractions (annualData : List AnnualData)
    (monthlyData : List MonthlyData) (referenceYears : List ℤ) :
    List (List ℚ) :=
  (List.range 12).map (fun m =>
    (qualifyingRefYears annualData monthlyData referenceYears).map (fun y =>
      if 0 < (annualLookup annualData y).elim 0 (fun a => a.entries) then
        ((monthCounts monthlyData y).getD m 0) /
          ((annualLookup annualData y).elim 0 (fun a => a.tournaments))
      else 0))

/-- `computeMonthlyWeights(annualData, monthlyData, referenceYears)` from
the forecaster. -/
noncomputable def computeMonthlyWeights (annualData : List AnnualData)
    (monthlyData : List MonthlyData) (referenceYears : List ℤ) :
    MonthlyWeights :=
  { tournament_weights :=
      (tournamentFractions annualData monthlyData referenceYears).map mean
    entry_weights :=
      (entryFractions annualData monthlyData referenceYears).map mean
    weight_std :=
      (tournamentFractions annualData monthlyData referenceYears).map stddev }

-- ---------------------------------------------------------------------------
-- Forecast engine: computeTrendLine (forecaster module)
-- ---------------------------------------------------------------------------

/-- The `metric` parameter of `computeTrendLine`. -/
inductive Metric
  | tournaments
  | entries
deriving DecidableEq, Repr

/-- `d[metric]`. -/
def metricOf (d : AnnualData) : Metric → ℚ
  | .tournaments => d.tournaments
  | .entries => d.entries

/-- The `eligible` list of `computeTrendLine`: drop 2020 and 2021, sort by
year descending (stable, as `Array.prototype.sort`), keep the most recent
four, re-sort ascending. -/
def trendEligible (annualData : List AnnualData) : List AnnualData :=
  (((annualData.filter (fun d => d.year ≠ 2020 ∧ d.year ≠ 2021)).insertionSort
      (fun a b => b.year ≤ a.year)).take 4).insertionSort
    (fun a b => a.year ≤ b.year)

/-- `computeTrendLine(annualData, metric, targetYear)` from the forecaster:
ordinary least squares of the metric against the year over `trendEligible`. -/
def computeTrendLine (annualData : List AnnualData) (metric : Metric)
    (targetYear : ℤ) : TrendReference :=
  let eligible := trendEligible annualData
  if eligible.length < 2 then
    { slope := 0, intercept := 0, r_squared := 0, projected_value := 0 }
  else
    let xs := eligible.map (fun d => (d.year : ℚ))
    let ys := eligible.map (fun d => metricOf d metric)
    let xMean := mean xs
    let yMean := mean ys
    let numer := ((xs.zip ys).map (fun p => (p.1 - xMean) * (p.2 - yMean))).sum
    let denom := (xs.map (fun x => (x - xMean) ^ 2)).sum
    let slope := if denom ≠ 0 then numer / denom else 0
    let intercept := yMean - slope * xMean
    let ssRes :=
      ((xs.zip ys).map (fun p => (p.2 - (slope * p.1 + intercept)) ^ 2)).sum
    let ssTot := (ys.map (fun y => (y - yMean) ^ 2)).sum
    let r_squared := if ssTot ≠ 0 then 1 - ssRes / ssTot else 0
    { slope := slope, intercept := intercept, r_squared := r_squared
      projected_value := round (slope * (targetYear : ℚ) + intercept) }

-- ---------------------------------------------------------------------------
-- Forecast engine: computeForecast (forecaster module)
-- ---------------------------------------------------------------------------

/-- The `backTestYears` list of `computeForecast`: every year appearing in
`annualData` other than 2020, 2021 and the target year. -/
def backTestYears (annualData : List AnnualData) (targetYear : ℤ) : List ℤ :=
  (annualData.map (fun d => d.year)).filter
    (fun y => y ≠ 2020 ∧ y ≠ 2021 ∧ y ≠ targetYear)

/-- The `tournamentRatios` accumulated by the back-test loop of
`computeForecast`: for each back-test year with annual and monthly data, a
nonzero annual tournament total and a nonzero reconstructed YTD, the ratio
`annual.tournaments / (ytdHistorical / cumulativeTournamentWeight)`. -/
def tournamentRatios (annualData : List AnnualData)
    (monthlyData : List MonthlyData) (completedMonths : ℕ)
    (cumulativeTournamentWeight : ℚ) (targetYear : ℤ) : List ℚ :=
  (backTestYears annualData targetYear).filterMap (fun y =>
    match annualLookup annualData y, monthlyLookup monthlyData y with
    | some annual, some monthly =>
        if annual.tournaments = 0 then none
        else
          let ytdHistorical := (monthly.take completedMonths).sum
          if ytdHistorical = 0 then none
          else some (annual.tournaments /
            (ytdHistorical / cumulativeTournamentWeight))
    | _, _ => none)

/-- The `entryRatios` accumulated by the same loop: pushed only when the
year's entries are positive, using the entry cumulative weight. -/
def entryRatios (annualData : List AnnualData)
    (monthlyData : List MonthlyData) (completedMonths : ℕ)
    (cumulativeEntryWeight : ℚ) (targetYear : ℤ) : List ℚ :=
  (backTestYears annualData targetYear).filterMap (fun y =>
    match annualLookup annualData y, monthlyLookup monthlyData y with
    | some annual, some monthly =>
        if annual.tournaments = 0 then none
        else
          let ytdHistorical := (monthly.take completedMonths).sum
          if ytdHistorical = 0 then none
          else if 0 < annual.entries then
            some (annual.entries / (ytdHistorical / cumulativeEntryWeight))
          else none
    | _, _ => none)

/-- The zeroed-out `emptyResult` of `computeForecast`. -/
def emptyForecast (completedMonths : ℕ) (targetYear : ℤ) : ForecastResult :=
  { target_year := targetYear
    months_of_data := completedMonths
    projected_tournaments := 0
    projected_entries := 0
    ci_68_low_tournaments := 0
    ci_68_high_tournaments := 0
    ci_95_low_tournaments := 0
    ci_95_high_tournaments := 0
    ci_68_low_entries := 0
    ci_68_high_entries := 0
    ci_95_low_entries := 0
    ci_95_high_entries := 0
    method := "seasonal_ratio"
    trend_reference := none }

/-- The fallback relative uncertainty of `computeForecast`: root sum of
squares of the first `completedMonths` per-month weight standard
deviations, divided by the cumulative tournament weight. -/
noncomputable def relativeUncertainty (monthlyWeights : MonthlyWeights)
    (completedMonths : ℕ) (cumulativeTournamentWeight : ℚ) : ℝ :=
  Real.sqrt (((monthlyWeights.weight_std.take completedMonths).map
      (fun s => s * s)).sum) / (cumulativeTournamentWeight : ℝ)

/-- `computeForecast(ytdTournaments, ytdEntries, completedMonths,
monthlyWeights, annualData, monthlyData, targetYear)` from the forecaster. -/
noncomputable def computeForecast (ytdTournaments ytdEntries : ℚ)
    (completedMonths : ℕ) (monthlyWeights : MonthlyWeights)
    (annualData : List AnnualData) (monthlyData : List MonthlyData)
    (targetYear : ℤ) : ForecastResult :=
  if completedMonths < 2 then emptyForecast completedMonths targetYear
  else
    let cumulativeTournamentWeight :=
      (monthlyWeights.tournament_weights.take completedMonths).sum
    let cumulativeEntryWeight :=
      (monthlyWeights.entry_weights.take completedMonths).sum
    if cumulativeTournamentWeight < 1/1000 ∨ cumulativeEntryWeight < 1/1000 then
      emptyForecast completedMonths targetYear
    else
      let projectedTournaments := ytdTournaments / cumulativeTournamentWeight
      let projectedEntries := ytdEntries / cumulativeEntryWeight
      let tRatios := tournamentRatios annualData monthlyData completedMonths
        cumulativeTournamentWeight targetYear
      let eRatios := entryRatios annualData monthlyData completedMonths
        cumulativeEntryWeight targetYear
      let u := relativeUncertainty monthlyWeights completedMonths
        cumulativeTournamentWeight
      let ciT : ℤ × ℤ × ℤ × ℤ :=
        if 2 ≤ tRatios.length then
          let ratioMean := mean tRatios
          let ratioStd := stddev tRatios
          (round ((projectedTournaments : ℝ) * ((ratioMean : ℝ) - ratioStd)),
           round ((projectedTournaments : ℝ) * ((ratioMean : ℝ) + ratioStd)),
           round ((projectedTournaments : ℝ) * ((ratioMean : ℝ) - 2 * ratioStd)),
           round ((projectedTournaments : ℝ) * ((ratioMean : ℝ) + 2 * ratioStd)))
        else
          (round ((projectedTournaments : ℝ) * (1 - u)),
           round ((projectedTournaments : ℝ) * (1 + u)),
           round ((projectedTournaments : ℝ) * (1 - 2 * u)),
           round ((projectedTournaments : ℝ) * (1 + 2 * u)))
      let ciE : ℤ × ℤ × ℤ × ℤ :=
        if 2 ≤ eRatios.length then
          let entryRatioMean := mean eRatios
          let entryRatioStd := stddev eRatios
          (round ((projectedEntries : ℝ) * ((entryRatioMean : ℝ) - entryRatioStd)),
           round ((projectedEntries : ℝ) * ((entryRatioMean : ℝ) + entryRatioStd)),
           round ((projectedEntries : ℝ) * ((entryRatioMean : ℝ) - 2 * entryRatioStd)),
           round ((projectedEntries : ℝ) * ((entryRatioMean : ℝ) + 2 * entryRatioStd)))
        else
          (round ((projectedEntries : ℝ) * (1 - u)),
           round ((projectedEntries : ℝ) * (1 + u)),
           round ((projectedEntries : ℝ) * (1 - 2 * u)),
           round ((projectedEntries : ℝ) * (1 + 2 * u)))
      { target_year := targetYear
        months_of_data := completedMonths
        projected_tournaments := round projectedTournaments
        projected_entries := round projectedEntries
        ci_68_low_tournaments := ciT.1
        ci_68_high_tournaments := ciT.2.1
        ci_95_low_tournaments := ciT.2.2.1
        ci_95_high_tournaments := ciT.2.2.2
        ci_68_low_entries := ciE.1
        ci_68_high_entries := ciE.2.1
        ci_95_low_entries := ciE.2.2.1
        ci_95_high_entries := ciE.2.2.2
        method := "seasonal_ratio"
        trend_reference := some (computeTrendLine annualData .tournaments targetYear) }

-- ---------------------------------------------------------------------------
-- Calibration loop (POST calibrate handler,
-- src/app/api/admin/observations/route.ts)
-- ---------------------------------------------------------------------------

/-- An `observations` row as used by calibration: a date range (dates as
integers, e.g. epoch days) and the human-asserted score. -/
structure Observation where
  period_start : ℤ
  period_end : ℤ
  observed_score : ℚ
deriving DecidableEq, Repr

/-- A `shadow_scores` row. -/
structure ShadowScore where
  methodology_version : ℕ
  score_date : ℤ
  composite_score : ℚ
deriving DecidableEq, Repr

/-- A `methodology_versions` row (fields the handler reads). -/
structure MethodologyVersion where
  version_number : ℕ
  is_active : Bool
deriving DecidableEq, Repr

/-- One element of the handler's `results` array. -/
structure VersionResult where
  version_number : ℕ
  is_active : Bool
  mae : Option ℚ
  observations_matched : ℕ
  total_shadow_scores : ℕ
deriving DecidableEq, Repr

/-- `matchingScores`: the shadow scores of a version whose date falls inside
the observation period (inclusive on both ends). -/
def matchingScores (versionScores : List ShadowScore) (obs : Observation) :
    List ShadowScore :=
  versionScores.filter (fun s =>
    obs.period_start ≤ s.score_date ∧ s.score_date ≤ obs.period_end)

/-- The per-version MAE computation of the handler: observations with at
least one matching shadow score contribute `|avg(matching) - observed|`;
`mae` is the average of those contributions, `null` when no observation
matched. -/
def versionResult (observations : List Observation)
    (shadowScores : List ShadowScore) (version : MethodologyVersion) :
    VersionResult :=
  let versionScores := shadowScores.filter
    (fun s => s.methodology_version = version.version_number)
  let matched := observations.filter
    (fun o => 0 < (matchingScores versionScores o).length)
  let totalError := (matched.map (fun o =>
    |mean ((matchingScores versionScores o).map (fun s => s.composite_score))
      - o.observed_score|)).sum
  { version_number := version.version_number
    is_active := version.is_active
    mae := if 0 < matched.length then some (totalError / (matched.length : ℚ))
      else none
    observations_matched := matched.length
    total_shadow_scores := versionScores.length }

/-- `rankedVersions`: results with a numeric MAE, sorted ascending by MAE
(stable, as `Array.prototype.sort` with `a.mae - b.mae`). -/
def rankedVersions (results : List VersionResult) : List VersionResult :=
  (results.filter (fun r => r.mae ≠ none)).insertionSort
    (fun a b => a.mae.getD 0 ≤ b.mae.getD 0)

/-- The calibrate handler's decision logic: fewer than 3 observations is
refused with the observation count (`Need at least 3 observations to
calibrate`, HTTP 400); otherwise it returns the per-version results and the
MAE ranking whose head is the recommended version. -/
def calibrate (observations : List Observation)
    (versions : List MethodologyVersion) (shadowScores : List ShadowScore) :
    Except ℕ (List VersionResult × List VersionResult) :=
  if observations.length < 3 then .error observations.length
  else
    let results := versions.map (versionResult observations shadowScores)
    .ok (results, rankedVersions results)

-- ---------------------------------------------------------------------------
-- Helper lemmas
-- ---------------------------------------------------------------------------

theorem clamp_nonneg (x : ℚ) : 0 ≤ clamp x := le_max_left 0 _

theorem clamp_le_100 (x : ℚ) : clamp x ≤ 100 :=
  max_le (by norm_num) (min_le_left _ _)

theorem round2_nonneg {x : ℚ} (h : 0 ≤ x) : 0 ≤ round2 x := by
  have hr : (0 : ℤ) ≤ round (x * 100) := by
    rw [round_eq]
    exact Int.le_floor.mpr (by push_cast; linarith)
  exact div_nonneg (by exact_mod_cast hr) (by norm_num)

theorem round2_le_100 {x : ℚ} (h : x ≤ 100) : round2 x ≤ 100 := by
  have hr : round (x * 100) ≤ 10000 := by
    rw [round_eq]
    have hlt : ⌊x * 100 + 1/2⌋ < 10001 :=
      Int.floor_lt.mpr (by push_cast; linarith)
    omega
  have hc : ((round (x * 100) : ℤ) : ℚ) ≤ 10000 := by exact_mod_cast hr
  unfold round2
  linarith

-- ---------------------------------------------------------------------------
-- C1
-- ---------------------------------------------------------------------------

/-- C1: for every input and every weight/breakpoint override merged over
the defaults, `computeHealthScore` returns `composite_score` equal to the
weighted sum of component score times component weight over the merged
weight keys, clamped to [0,100] and rounded to 2 decimals (hence always in
[0,100]), while `band` is classified by the fixed thresholds ≥80 thriving,
≥65 healthy, ≥50 stable, ≥35 concerning, else critical applied to the
unclamped weighted sum. -/
theorem C1_composite_and_band (input : HealthScoreInput) (v : ℕ)
    (cw : WeightOverrides) (cb : BreakpointOverrides) :
    (computeHealthScore input v cw cb).composite_score =
      round2 (clamp (weightedSum
        (componentScoresOf input (mergeBreakpoints DEFAULT_BREAKPOINTS cb))
        (mergeWeights DEFAULT_WEIGHTS cw))) ∧
    0 ≤ (computeHealthScore input v cw cb).composite_score ∧
    (computeHealthScore input v cw cb).composite_score ≤ 100 ∧
    (computeHealthScore input v cw cb).band =
      (if 80 ≤ weightedSum
          (componentScoresOf input (mergeBreakpoints DEFAULT_BREAKPOINTS cb))
          (mergeWeights DEFAULT_WEIGHTS cw) then Band.thriving
       else if 65 ≤ weightedSum
          (componentScoresOf input (mergeBreakpoints DEFAULT_BREAKPOINTS cb))
          (mergeWeights DEFAULT_WEIGHTS cw) then Band.healthy
       else if 50 ≤ weightedSum
          (componentScoresOf input (mergeBreakpoints DEFAULT_BREAKPOINTS cb))
          (mergeWeights DEFAULT_WEIGHTS cw) then Band.stable
       else if 35 ≤ weightedSum
          (componentScoresOf input (mergeBreakpoints DEFAULT_BREAKPOINTS cb))
          (mergeWeights DEFAULT_WEIGHTS cw) then Band.concerning
       else Band.critical) := by
  refine ⟨rfl, ?_, ?_, rfl⟩
  · exact round2_nonneg (clamp_nonneg _)
  · exact round2_le_100 (clamp_le_100 _)

-- ---------------------------------------------------------------------------
-- C3
-- ---------------------------------------------------------------------------

/-- C3: whenever `completedMonths < 2`, or either cumulative weight (the
sum of the first `completedMonths` monthly weights) is below 0.001,
`computeForecast` returns zero point projections and zero 68%/95%
confidence-interval bounds for both tournaments and entries, regardless of
all other inputs. -/
theorem C3_forecast_suppressed (ytdT ytdE : ℚ) (cm : ℕ) (mw : MonthlyWeights)
    (annualData : List AnnualData) (monthlyData : List MonthlyData) (ty : ℤ)
    (h : cm < 2 ∨ (mw.tournament_weights.take cm).sum < 1/1000 ∨
      (mw.entry_weights.take cm).sum < 1/1000) :
    (computeForecast ytdT ytdE cm mw annualData monthlyData ty).projected_tournaments = 0 ∧
    (computeForecast ytdT ytdE cm mw annualData monthlyData ty).projected_entries = 0 ∧
    (computeForecast ytdT ytdE cm mw annualData monthlyData ty).ci_68_low_tournaments = 0 ∧
    (computeForecast ytdT ytdE cm mw annualData monthlyData ty).ci_68_high_tournaments = 0 ∧
    (computeForecast ytdT ytdE cm mw annualData monthlyData ty).ci_95_low_tournaments = 0 ∧
    (computeForecast ytdT ytdE cm mw annualData monthlyData ty).ci_95_high_tournaments = 0 ∧
    (computeForecast ytdT ytdE cm mw annualData monthlyData ty).ci_68_low_entries = 0 ∧
    (computeForecast ytdT ytdE cm mw annualData monthlyData ty).ci_68_high_entries = 0 ∧
    (computeForecast ytdT ytdE cm mw annualData monthlyData ty).ci_95_low_entries = 0 ∧
    (computeForecast ytdT ytdE cm mw annualData monthlyData ty).ci_95_high_entries = 0 := by
  have hres : computeForecast ytdT ytdE cm mw annualData monthlyData ty =
      emptyForecast cm ty := by
    unfold computeForecast
    rcases Nat.lt_or_ge cm 2 with h2 | h2
    · rw [if_pos h2]
    · rw [if_neg (Nat.not_lt.mpr h2)]
      have hw : (mw.tournament_weights.take cm).sum < 1/1000 ∨
          (mw.entry_weights.take cm).sum < 1/1000 := by
        rcases h with h | h
        · exact absurd h (Nat.not_lt.mpr h2)
        · exact h
      simp only [if_pos hw]
  rw [hres]
  exact ⟨rfl, rfl, rfl, rfl, rfl, rfl, rfl, rfl, rfl, rfl⟩

/-- Concrete all-zero run of `computeForecast` at one month of data,
discharging C3's hypothesis. -/
theorem C3_forecast_suppressed_witness :
    1 < 2 ∧
    (computeForecast 112 500 1 ⟨[1/4, 1/4], [1/4, 1/4], [0, 0]⟩ [] [] 2026).projected_tournaments = 0 ∧
    (computeForecast 112 500 1 ⟨[1/4, 1/4], [1/4, 1/4], [0, 0]⟩ [] [] 2026).ci_95_high_entries = 0 := by
  have h := C3_forecast_suppressed 112 500 1 ⟨[1/4, 1/4], [1/4, 1/4], [0, 0]⟩ [] [] 2026
    (Or.inl (by norm_num))
  exact ⟨by norm_num, h.1, h.2.2.2.2.2.2.2.2.2⟩

-- ---------------------------------------------------------------------------
-- C2
-- ---------------------------------------------------------------------------

/-- C2: whenever `completedMonths ≥ 2` and both cumulative weights are at
least 0.001, `computeForecast` returns `projected_tournaments =
round(ytdTournaments / cumulative tournament weight)` and
`projected_entries = round(ytdEntries / cumulative entry weight)`; each
projection depends only on its own YTD figure and cumulative weight. -/
theorem C2_forecast_projection (ytdT ytdE : ℚ) (cm : ℕ) (mw : MonthlyWeights)
    (annualData : List AnnualData) (monthlyData : List MonthlyData) (ty : ℤ)
    (h2 : 2 ≤ cm)
    (ht : 1/1000 ≤ (mw.tournament_weights.take cm).sum)
    (he : 1/1000 ≤ (mw.entry_weights.take cm).sum) :
    (computeForecast ytdT ytdE cm mw annualData monthlyData ty).projected_tournaments =
      round (ytdT / (mw.tournament_weights.take cm).sum) ∧
    (computeForecast ytdT ytdE cm mw annualData monthlyData ty).projected_entries =
      round (ytdE / (mw.entry_weights.take cm).sum) := by
  unfold computeForecast
  rw [if_neg (Nat.not_lt.mpr h2),
    if_neg (not_or.mpr ⟨not_lt.mpr ht, not_lt.mpr he⟩)]
  exact ⟨rfl, rfl⟩

/-- Concrete run of C2: two months at cumulative weight 1/2 doubles the
YTD actuals (224 tournaments from 112, 112 entries from 56). -/
theorem C2_forecast_projection_witness :
    2 ≤ 2 ∧
    (1 : ℚ)/1000 ≤ (((⟨[1/4, 1/4], [1/4, 1/4], [0, 0]⟩ : MonthlyWeights).tournament_weights).take 2).sum ∧
    (1 : ℚ)/1000 ≤ (((⟨[1/4, 1/4], [1/4, 1/4], [0, 0]⟩ : MonthlyWeights).entry_weights).take 2).sum ∧
    (computeForecast 112 56 2 ⟨[1/4, 1/4], [1/4, 1/4], [0, 0]⟩ [] [] 2026).projected_tournaments = 224 ∧
    (computeForecast 112 56 2 ⟨[1/4, 1/4], [1/4, 1/4], [0, 0]⟩ [] [] 2026).projected_entries = 112 := by
  have h := C2_forecast_projection 112 56 2 ⟨[1/4, 1/4], [1/4, 1/4], [0, 0]⟩ [] [] 2026
    (le_refl 2) (by norm_num) (by norm_num)
  refine ⟨le_refl 2, by norm_num, by norm_num, ?_, ?_⟩
  · rw [h.1]; norm_num [round_eq]
  · rw [h.2]; norm_num [round_eq]

-- ---------------------------------------------------------------------------
-- C10
-- ---------------------------------------------------------------------------

/-- C10: the suppressed forecast (fewer than 2 months, or a cumulative
weight below 0.001) still carries `target_year` equal to the `targetYear`
argument, `months_of_data` equal to the `completedMonths` argument, method
`"seasonal_ratio"` and a null `trend_reference`; every non-suppressed
result instead carries the non-null trend reference computed by
`computeTrendLine` on tournaments. -/
theorem C10_forecast_metadata (ytdT ytdE : ℚ) (cm : ℕ) (mw : MonthlyWeights)
    (annualData : List AnnualData) (monthlyData : List MonthlyData) (ty : ℤ) :
    ((cm < 2 ∨ (mw.tournament_weights.take cm).sum < 1/1000 ∨
        (mw.entry_weights.take cm).sum < 1/1000) →
      (computeForecast ytdT ytdE cm mw annualData monthlyData ty).target_year = ty ∧
      (computeForecast ytdT ytdE cm mw annualData monthlyData ty).months_of_data = cm ∧
      (computeForecast ytdT ytdE cm mw annualData monthlyData ty).method = "seasonal_ratio" ∧
      (computeForecast ytdT ytdE cm mw annualData monthlyData ty).trend_reference = none) ∧
    (2 ≤ cm → 1/1000 ≤ (mw.tournament_weights.take cm).sum →
      1/1000 ≤ (mw.entry_weights.take cm).sum →
      (computeForecast ytdT ytdE cm mw annualData monthlyData ty).target_year = ty ∧
      (computeForecast ytdT ytdE cm mw annualData monthlyData ty).months_of_data = cm ∧
      (computeForecast ytdT ytdE cm mw annualData monthlyData ty).method = "seasonal_ratio" ∧
      (computeForecast ytdT ytdE cm mw annualData monthlyData ty).trend_reference =
        some (computeTrendLine annualData .tournaments ty)) := by
  constructor
  · intro h
    have hres : computeForecast ytdT ytdE cm mw annualData monthlyData ty =
        emptyForecast cm ty := by
      unfold computeForecast
      rcases Nat.lt_or_ge cm 2 with h2 | h2
      · rw [if_pos h2]
      · rw [if_neg (Nat.not_lt.mpr h2)]
        have hw : (mw.tournament_weights.take cm).sum < 1/1000 ∨
            (mw.entry_weights.take cm).sum < 1/1000 := by
          rcases h with h | h
          · exact absurd h (Nat.not_lt.mpr h2)
          · exact h
        simp only [if_pos hw]
    rw [hres]
    exact ⟨rfl, rfl, rfl, rfl⟩
  · intro h2 ht he
    unfold computeForecast
    rw [if_neg (Nat.not_lt.mpr h2),
      if_neg (not_or.mpr ⟨not_lt.mpr ht, not_lt.mpr he⟩)]
    exact ⟨rfl, rfl, rfl, rfl⟩

/-- Concrete runs of C10: a one-month call keeps its metadata with a null
trend reference; a two-month call carries the trend reference. -/
theorem C10_forecast_metadata_witness :
    1 < 2 ∧
    (computeForecast 112 500 1 ⟨[1/4, 1/4], [1/4, 1/4], [0, 0]⟩ [] [] 2026).target_year = 2026 ∧
    (computeForecast 112 500 1 ⟨[1/4, 1/4], [1/4, 1/4], [0, 0]⟩ [] [] 2026).months_of_data = 1 ∧
    (computeForecast 112 500 1 ⟨[1/4, 1/4], [1/4, 1/4], [0, 0]⟩ [] [] 2026).trend_reference = none ∧
    (computeForecast 112 56 2 ⟨[1/4, 1/4], [1/4, 1/4], [0, 0]⟩ [] [] 2026).trend_reference =
      some (computeTrendLine [] .tournaments 2026) := by
  have h1 := (C10_forecast_metadata 112 500 1 ⟨[1/4, 1/4], [1/4, 1/4], [0, 0]⟩ [] [] 2026).1
    (Or.inl (by norm_num))
  have h2 := (C10_forecast_metadata 112 56 2 ⟨[1/4, 1/4], [1/4, 1/4], [0, 0]⟩ [] [] 2026).2
    (le_refl 2) (by norm_num) (by norm_num)
  exact ⟨by norm_num, h1.1, h1.2.1, h1.2.2.2, h2.2.2.2⟩

-- ---------------------------------------------------------------------------
-- C9
-- ---------------------------------------------------------------------------

theorem versionResult_mae_none (observations : List Observation)
    (shadowScores : List ShadowScore) (v : MethodologyVersion)
    (h : ∀ o ∈ observations,
      matchingScores (shadowScores.filter
        (fun s => s.methodology_version = v.version_number)) o = []) :
    (versionResult observations shadowScores v).mae = none := by
  have hm : observations.filter
      (fun o => 0 < (matchingScores (shadowScores.filter
        (fun s => s.methodology_version = v.version_number)) o).length) = [] := by
    rw [List.filter_eq_nil_iff]
    intro o ho
    simp [h o ho]
  unfold versionResult
  simp [hm]

theorem mem_rankedVersions_mae (results : List VersionResult)
    (x : VersionResult) (hx : x ∈ rankedVersions results) : x.mae ≠ none := by
  unfold rankedVersions at hx
  have hmem := (List.perm_insertionSort
    (fun a b => a.mae.getD 0 ≤ b.mae.getD 0)
    (results.filter (fun r => r.mae ≠ none))).mem_iff.mp hx
  have hp := (List.mem_filter.mp hmem).2
  simpa using hp

/-- C9: calibration with fewer than 3 observations refuses outright,
reporting the deficient count (and hence produces no MAE for any version);
and a methodology version whose shadow scores match zero observation
periods gets a null MAE and is excluded from the MAE ranking that
determines the recommendation. -/
theorem C9_calibration (observations : List Observation)
    (versions : List MethodologyVersion) (shadowScores : List ShadowScore)
    (v : MethodologyVersion) :
    (observations.length < 3 →
      calibrate observations versions shadowScores = .error observations.length) ∧
    ((∀ o ∈ observations,
        matchingScores (shadowScores.filter
          (fun s => s.methodology_version = v.version_number)) o = []) →
      (versionResult observations shadowScores v).mae = none ∧
      (v ∈ versions → ∀ results ranked,
        calibrate observations versions shadowScores = .ok (results, ranked) →
        versionResult observations shadowScores v ∈ results ∧
        versionResult observations shadowScores v ∉ ranked)) := by
  constructor
  · intro h
    unfold calibrate
    rw [if_pos h]
  · intro hmatch
    have hnone := versionResult_mae_none observations shadowScores v hmatch
    refine ⟨hnone, ?_⟩
    intro hv results ranked heq
    by_cases hlen : observations.length < 3
    · unfold calibrate at heq
      rw [if_pos hlen] at heq
      exact absurd heq (by simp)
    · unfold calibrate at heq
      rw [if_neg hlen] at heq
      simp only [Except.ok.injEq, Prod.mk.injEq] at heq
      obtain ⟨hres, hrank⟩ := heq
      constructor
      · rw [← hres]
        exact List.mem_map.mpr ⟨v, hv, rfl⟩
      · intro habs
        rw [← hrank] at habs
        exact mem_rankedVersions_mae _ _ habs hnone

def obs2 : List Observation := [⟨0, 10, 70⟩, ⟨11, 20, 60⟩]

def obs3 : List Observation := [⟨0, 10, 70⟩, ⟨11, 20, 60⟩, ⟨21, 30, 50⟩]

def vs9 : List MethodologyVersion := [⟨1, true⟩, ⟨2, false⟩]

def ss9 : List ShadowScore := [⟨2, 5, 65⟩, ⟨2, 15, 55⟩]

/-- Concrete runs of C9: two observations are refused with count 2; with
three observations, version 1 (which has no shadow scores at all) gets a
null MAE and is absent from the ranking. -/
theorem C9_calibration_witness :
    obs2.length < 3 ∧
    calibrate obs2 vs9 ss9 = .error 2 ∧
    (∀ o ∈ obs3, matchingScores (ss9.filter
      (fun s => s.methodology_version = 1)) o = []) ∧
    (versionResult obs3 ss9 ⟨1, true⟩).mae = none ∧
    versionResult obs3 ss9 ⟨1, true⟩ ∉
      rankedVersions [versionResult obs3 ss9 ⟨1, true⟩,
        versionResult obs3 ss9 ⟨2, false⟩] := by
  refine ⟨by decide, (C9_calibration obs2 vs9 ss9 ⟨1, true⟩).1 (by decide),
    by decide, ((C9_calibration obs3 vs9 ss9 ⟨1, true⟩).2 (by decide)).1, ?_⟩
  exact ((((C9_calibration obs3 vs9 ss9 ⟨1, true⟩).2 (by decide)).2 (by decide))
    [versionResult obs3 ss9 ⟨1, true⟩, versionResult obs3 ss9 ⟨2, false⟩]
    (rankedVersions [versionResult obs3 ss9 ⟨1, true⟩,
      versionResult obs3 ss9 ⟨2, false⟩])
    (by unfold calibrate; rw [if_neg (by norm_num [obs3])]; rfl)).2

-- ---------------------------------------------------------------------------
-- C6
-- ---------------------------------------------------------------------------

theorem tournamentFractions_getElem (A : List AnnualData)
    (M : List MonthlyData) (R : List ℤ) (m : ℕ) (hm : m < 12) :
    (tournamentFractions A M R)[m]? =
      some ((qualifyingRefYears A M R).map (fun y =>
        ((monthCounts M y).getD m 0) /
          ((annualLookup A y).elim 0 (fun a => a.tournaments)))) := by
  unfold tournamentFractions
  rw [List.getElem?_map, List.getElem?_range hm]
  rfl

theorem monthCounts_getD (M : List MonthlyData) (y : ℤ) (m : ℕ)
    (hm : m < 12) :
    (monthCounts M y).getD m 0 =
      ((M.filter (fun d => d.year = y ∧ d.month = m + 1)).map
        (fun d => d.event_count)).sum := by
  unfold monthCounts
  rw [List.getD_eq_getElem?_getD, List.getElem?_map, List.getElem?_range hm]
  rfl

def annual6 : List AnnualData := [⟨2019, 100, 50⟩, ⟨2022, 100, 50⟩]

def monthly6 : List MonthlyData := [⟨2019, 1, 10⟩, ⟨2019, 2, 20⟩, ⟨2022, 1, 50⟩]

/-- C6 counterexample: reference year 2022 has monthly data (a January
record) but no February record, a nonzero annual total and annual data, so
by the claim it "lacks data for" February and must contribute no fraction
to February's average.  In fact both 2019 and 2022 qualify, February's
fraction list is `[1/5, 0]` — 2022 contributes an imputed zero — and the
February weight is their mean `1/10`, not `1/5` (the mean of 2019's
fraction alone, which the claim's reading would give). -/
theorem C6_counterexample :
    qualifyingRefYears annual6 monthly6 [2019, 2022] = [2019, 2022] ∧
    (tournamentFractions annual6 monthly6 [2019, 2022])[1]? = some [1/5, 0] ∧
    ((computeMonthlyWeights annual6 monthly6
      [2019, 2022]).tournament_weights)[1]? = some (1/10) ∧
    (1 : ℚ)/10 ≠ 1/5 := by
  have hq : qualifyingRefYears annual6 monthly6 [2019, 2022] = [2019, 2022] := by
    decide
  have hfrac : (tournamentFractions annual6 monthly6 [2019, 2022])[1]? =
      some [1/5, 0] := by
    rw [tournamentFractions_getElem annual6 monthly6 [2019, 2022] 1 (by norm_num),
      hq]
    rw [List.map_cons, List.map_cons, List.map_nil,
      monthCounts_getD monthly6 2019 1 (by norm_num),
      monthCounts_getD monthly6 2022 1 (by norm_num)]
    norm_num [annual6, monthly6, annualLookup, List.filter]
  refine ⟨hq, hfrac, ?_, by norm_num⟩
  show ((tournamentFractions annual6 monthly6 [2019, 2022]).map mean)[1]? =
    some (1/10)
  rw [List.getElem?_map, hfrac]
  norm_num [mean]

/-- C6 amended: in `computeMonthlyWeights`, a reference year is skipped
(for all twelve months at once) exactly when it lacks annual data, lacks
monthly data entirely, or has a zero annual tournament total; every other
reference year contributes a fraction to every month's average and
standard deviation, and for a month in which it has no records that
contributed fraction is an imputed zero. -/
theorem C6_amended (A : List AnnualData) (M : List MonthlyData) (R : List ℤ)
    (m : ℕ) (hm : m < 12) :
    (∀ y ∈ R,
      (((annualLookup A y).isSome ∧ hasMonthlyData M y ∧
          (annualLookup A y).elim 0 (fun a => a.tournaments) ≠ 0) →
        y ∈ qualifyingRefYears A M R) ∧
      (¬ ((annualLookup A y).isSome ∧ hasMonthlyData M y ∧
          (annualLookup A y).elim 0 (fun a => a.tournaments) ≠ 0) →
        y ∉ qualifyingRefYears A M R)) ∧
    (∃ L, (tournamentFractions A M R)[m]? = some L ∧
      L.length = (qualifyingRefYears A M R).length ∧
      ∀ k, k < (qualifyingRefYears A M R).length →
        (∀ d ∈ M, ¬(d.year = (qualifyingRefYears A M R).getD k 0 ∧
          d.month = m + 1)) →
        L.getD k 1 = 0) := by
  constructor
  · intro y hy
    constructor
    · intro hcond
      unfold qualifyingRefYears
      rw [List.mem_filter]
      exact ⟨hy, by simpa using hcond⟩
    · intro hcond habs
      unfold qualifyingRefYears at habs
      rw [List.mem_filter] at habs
      exact hcond (by simpa using habs.2)
  · refine ⟨_, tournamentFractions_getElem A M R m hm, by rw [List.length_map], ?_⟩
    intro k hk hno
    have hget : (qualifyingRefYears A M R)[k] =
        (qualifyingRefYears A M R).getD k 0 := by
      rw [List.getD_eq_getElem?_getD, List.getElem?_eq_getElem hk]
      rfl
    have hfilter : M.filter (fun d =>
        d.year = (qualifyingRefYears A M R)[k] ∧ d.month = m + 1) = [] := by
      rw [List.filter_eq_nil_iff]
      intro d hd
      rw [hget]
      simpa using hno d hd
    rw [List.getD_eq_getElem?_getD, List.getElem?_map,
      List.getElem?_eq_getElem hk]
    show (monthCounts M ((qualifyingRefYears A M R)[k])).getD m 0 /
      ((annualLookup A ((qualifyingRefYears A M R)[k])).elim 0
        (fun a => a.tournaments)) = 0
    rw [monthCounts_getD M _ m hm, hfilter]
    simp

/-- Concrete run of C6 amended: in the counterexample data, qualifying
year 2022 (index 1) has no February record and its contributed February
fraction is zero. -/
theorem C6_amended_witness :
    (1 : ℕ) < 12 ∧
    (∀ d ∈ monthly6, ¬(d.year =
      (qualifyingRefYears annual6 monthly6 [2019, 2022]).getD 1 0 ∧
      d.month = 1 + 1)) ∧
    ∃ L, (tournamentFractions annual6 monthly6 [2019, 2022])[1]? = some L ∧
      L.getD 1 1 = 0 := by
  obtain ⟨-, L, hL, hlen, hzero⟩ :=
    C6_amended annual6 monthly6 [2019, 2022] 1 (by norm_num)
  exact ⟨by norm_num, by decide, L, hL, hzero 1 (by decide) (by decide)⟩

-- ---------------------------------------------------------------------------
-- C5
-- ---------------------------------------------------------------------------

theorem lerpLoop_bracket (x : ℚ) :
    ∀ (l : Breakpoints), l.Pairwise (fun p q => p.1 < q.1) →
    ∀ (i : ℕ) (hi : i + 1 < l.length),
      (l.get ⟨i, Nat.lt_of_succ_lt hi⟩).1 ≤ x → x ≤ (l.get ⟨i + 1, hi⟩).1 →
      lerpLoop x l = some (clamp ((l.get ⟨i, Nat.lt_of_succ_lt hi⟩).2 +
        (x - (l.get ⟨i, Nat.lt_of_succ_lt hi⟩).1) /
          ((l.get ⟨i + 1, hi⟩).1 - (l.get ⟨i, Nat.lt_of_succ_lt hi⟩).1) *
        ((l.get ⟨i + 1, hi⟩).2 - (l.get ⟨i, Nat.lt_of_succ_lt hi⟩).2))) := by
  intro l
  induction l with
  | nil =>
    intro _ i hi
    simp at hi
  | cons p tl ih =>
    intro hpw i hi h0 h1
    cases tl with
    | nil =>
      simp at hi
    | cons q rest =>
      have hpq : p.1 < q.1 := (List.pairwise_cons.mp hpw).1 q (by simp)
      by_cases hc : p.1 ≤ x ∧ x ≤ q.1
      · simp only [lerpLoop, if_pos hc]
        cases i with
        | zero => rfl
        | succ j =>
          cases j with
          | zero =>
            have hxq : x = q.1 := le_antisymm hc.2 (by simpa using h0)
            have hne : q.1 - p.1 ≠ 0 := sub_ne_zero.mpr (ne_of_gt hpq)
            simp only [List.get_cons_succ, Fin.mk_zero, List.get_cons_zero]
            rw [hxq, div_self hne, sub_self, zero_div, zero_mul, add_zero,
              one_mul]
            congr 1
            ring_nf
          | succ j2 =>
            exfalso
            have hq : q.1 < ((p :: q :: rest).get
                ⟨j2 + 2, Nat.lt_of_succ_lt hi⟩).1 := by
              have hpw2 := hpw.of_cons
              have hlt := List.pairwise_iff_get.mp hpw2
                ⟨0, by simp⟩
                ⟨j2 + 1, by simp only [List.length_cons] at hi ⊢; omega⟩
                (Fin.mk_lt_mk.mpr (Nat.succ_pos _))
              simpa using hlt
            have hle : ((p :: q :: rest).get
                ⟨j2 + 2, Nat.lt_of_succ_lt hi⟩).1 ≤ x := h0
            linarith [hc.2]
      · simp only [lerpLoop, if_neg hc]
        cases i with
        | zero =>
          exact absurd ⟨by simpa using h0, by simpa using h1⟩ hc
        | succ j =>
          have hres := ih hpw.of_cons j (by simpa using hi)
            (by simpa using h0) (by simpa using h1)
          simpa using hres

/-- C5: for every value and every breakpoint list sorted strictly
ascending by input: the empty list yields 0; a value at or below the first
input yields the first output clamped to [0,100]; a value at or above the
last input yields the last output clamped; otherwise the result is the
clamped linear interpolation of the outputs of any bracketing consecutive
pair, proportional to the value's position between their inputs. -/
theorem C5_interpolate_contract (x : ℚ) (bps : Breakpoints)
    (hsorted : bps.Pairwise (fun p q => p.1 < q.1)) :
    interpolate x [] = 0 ∧
    (∀ h : bps ≠ [], x ≤ (bps.head h).1 →
      interpolate x bps = clamp (bps.head h).2) ∧
    (∀ h : bps ≠ [], (bps.getLast h).1 ≤ x →
      interpolate x bps = clamp (bps.getLast h).2) ∧
    (∀ (i : ℕ) (hi : i + 1 < bps.length) (h : bps ≠ []),
      (bps.head h).1 < x → x < (bps.getLast h).1 →
      (bps.get ⟨i, Nat.lt_of_succ_lt hi⟩).1 ≤ x →
      x ≤ (bps.get ⟨i + 1, hi⟩).1 →
      interpolate x bps = clamp ((bps.get ⟨i, Nat.lt_of_succ_lt hi⟩).2 +
        (x - (bps.get ⟨i, Nat.lt_of_succ_lt hi⟩).1) /
          ((bps.get ⟨i + 1, hi⟩).1 - (bps.get ⟨i, Nat.lt_of_succ_lt hi⟩).1) *
        ((bps.get ⟨i + 1, hi⟩).2 - (bps.get ⟨i, Nat.lt_of_succ_lt hi⟩).2))) := by
  refine ⟨rfl, ?_, ?_, ?_⟩
  · intro h hx
    cases bps with
    | nil => exact absurd rfl h
    | cons p rest =>
      simp only [interpolate, List.head_cons] at hx ⊢
      rw [if_pos hx]
  · intro h hlast
    cases bps with
    | nil => exact absurd rfl h
    | cons p rest =>
      by_cases hx : x ≤ p.1
      · cases rest with
        | nil =>
          simp only [interpolate, List.getLast_singleton] at hlast ⊢
          rw [if_pos hx]
        | cons q rest2 =>
          exfalso
          have hlmem : (q :: rest2).getLast (by simp) ∈ q :: rest2 :=
            List.getLast_mem _
          have hplast : p.1 < ((q :: rest2).getLast (by simp)).1 :=
            (List.pairwise_cons.mp hsorted).1 _ hlmem
          have hl2 : ((p :: q :: rest2).getLast h).1 ≤ p.1 := by
            calc ((p :: q :: rest2).getLast h).1 ≤ x := hlast
              _ ≤ p.1 := hx
          rw [List.getLast_cons (by simp)] at hl2
          linarith
      · simp only [interpolate]
        rw [if_neg hx, if_pos (by exact hlast)]
  · intro i hi h hhead hlast hx0 hx1
    cases bps with
    | nil => exact absurd rfl h
    | cons p rest =>
      have hxp : ¬ x ≤ p.1 := not_le.mpr (by simpa using hhead)
      have hxl : ¬ ((p :: rest).getLast (List.cons_ne_nil p rest)).1 ≤ x :=
        not_le.mpr (by simpa using hlast)
      simp only [interpolate]
      rw [if_neg hxp, if_neg hxl,
        lerpLoop_bracket x (p :: rest) hsorted i hi hx0 hx1]

/-- Concrete run of C5: interpolating 5 between breakpoints (0,0) and
(10,50) gives 25. -/
theorem C5_interpolate_contract_witness :
    ([(0, 0), (10, 50), (20, 100)] : Breakpoints).Pairwise
      (fun p q => p.1 < q.1) ∧
    interpolate 5 [(0, 0), (10, 50), (20, 100)] = 25 := by
  constructor
  · norm_num
  · have h := (C5_interpolate_contract 5 [(0, 0), (10, 50), (20, 100)]
      (by norm_num)).2.2.2 0 (by norm_num) (by simp)
      (by norm_num) (by norm_num [List.getLast]) (by norm_num) (by norm_num)
    rw [h]
    norm_num [clamp]

-- ---------------------------------------------------------------------------
-- C7
-- ---------------------------------------------------------------------------

theorem trendEligible_pair (annualData : List AnnualData) (a b : AnnualData)
    (hfilter : annualData.filter
      (fun d => d.year ≠ 2020 ∧ d.year ≠ 2021) = [a, b]) :
    trendEligible annualData = [a, b] ∨ trendEligible annualData = [b, a] := by
  unfold trendEligible
  rw [hfilter]
  by_cases hd : b.year ≤ a.year
  · by_cases ha : a.year ≤ b.year
    · left
      simp [List.insertionSort, List.orderedInsert, hd, ha]
    · right
      simp [List.insertionSort, List.orderedInsert, hd, ha]
  · left
    simp [List.insertionSort, List.orderedInsert, hd, le_of_not_le hd]

theorem computeTrendLine_pair (annualData : List AnnualData) (a b : AnnualData)
    (metric : Metric) (ty : ℤ)
    (helig : trendEligible annualData = [a, b]) (hy : a.year ≠ b.year) :
    (computeTrendLine annualData metric ty).slope * (a.year : ℚ) +
      (computeTrendLine annualData metric ty).intercept = metricOf a metric ∧
    (computeTrendLine annualData metric ty).slope * (b.year : ℚ) +
      (computeTrendLine annualData metric ty).intercept = metricOf b metric ∧
    (metricOf a metric ≠ metricOf b metric →
      (computeTrendLine annualData metric ty).r_squared = 1) ∧
    (metricOf a metric = metricOf b metric →
      (computeTrendLine annualData metric ty).r_squared = 0) := by
  have hxne : (a.year : ℚ) ≠ (b.year : ℚ) := by exact_mod_cast hy
  have hmean2 : ∀ u v : ℚ, mean [u, v] = (u + v) / 2 := by
    intro u v
    simp [mean]
  unfold computeTrendLine
  rw [helig]
  simp only [List.length_cons, List.length_nil, List.map_cons, List.map_nil,
    List.zip_cons_cons, List.zip_nil_right, List.sum_cons, List.sum_nil]
  set x1 : ℚ := (a.year : ℚ) with hx1
  set x2 : ℚ := (b.year : ℚ) with hx2
  set y1 : ℚ := metricOf a metric with hy1
  set y2 : ℚ := metricOf b metric with hy2
  rw [hmean2, hmean2, if_neg (by norm_num : ¬((0:ℕ) + 1 + 1 < 2))]
  have hd0 : (x1 - (x1 + x2) / 2) ^ 2 + ((x2 - (x1 + x2) / 2) ^ 2 + 0) ≠ 0 := by
    have hD : (x1 - (x1 + x2) / 2) ^ 2 + ((x2 - (x1 + x2) / 2) ^ 2 + 0) =
        (x1 - x2) ^ 2 / 2 := by ring
    rw [hD]
    exact div_ne_zero (pow_ne_zero 2 (sub_ne_zero_of_ne hxne)) two_ne_zero
  rw [if_pos hd0]
  dsimp only
  have hx21 : x2 - x1 ≠ 0 := sub_ne_zero_of_ne (Ne.symm hxne)
  have hND : ((x1 - (x1 + x2) / 2) * (y1 - (y1 + y2) / 2) +
      ((x2 - (x1 + x2) / 2) * (y2 - (y1 + y2) / 2) + 0)) /
      ((x1 - (x1 + x2) / 2) ^ 2 + ((x2 - (x1 + x2) / 2) ^ 2 + 0)) =
      (y2 - y1) / (x2 - x1) := by
    rw [div_eq_div_iff hd0 hx21]
    ring
  rw [hND]
  have h1 : (y2 - y1) / (x2 - x1) * x1 +
      ((y1 + y2) / 2 - (y2 - y1) / (x2 - x1) * ((x1 + x2) / 2)) = y1 := by
    field_simp
    ring
  have h2 : (y2 - y1) / (x2 - x1) * x2 +
      ((y1 + y2) / 2 - (y2 - y1) / (x2 - x1) * ((x1 + x2) / 2)) = y2 := by
    field_simp
    ring
  refine ⟨h1, h2, ?_, ?_⟩
  · intro hne
    have hsst : (y1 - (y1 + y2) / 2) ^ 2 + ((y2 - (y1 + y2) / 2) ^ 2 + 0) ≠ 0 := by
      have hT : (y1 - (y1 + y2) / 2) ^ 2 + ((y2 - (y1 + y2) / 2) ^ 2 + 0) =
          (y1 - y2) ^ 2 / 2 := by ring
      rw [hT]
      exact div_ne_zero (pow_ne_zero 2 (sub_ne_zero_of_ne hne)) two_ne_zero
    rw [if_pos hsst, h1, h2]
    simp
  · intro heq
    have hsst0 : (y1 - (y1 + y2) / 2) ^ 2 + ((y2 - (y1 + y2) / 2) ^ 2 + 0) = 0 := by
      rw [heq]
      ring
    rw [if_neg (not_not_intro hsst0)]

def annual7 : List AnnualData := [⟨2022, 100, 0⟩, ⟨2023, 100, 0⟩]

/-- C7 counterexample: two eligible records with distinct years (2022 and
2023) but equal tournament totals (100 each).  The regression is flat, the
total sum of squares is 0, and `computeTrendLine` takes its `ssTot = 0`
branch, returning `r_squared = 0` — not 1 as the claim states. -/
theorem C7_counterexample :
    annual7.filter (fun d => d.year ≠ 2020 ∧ d.year ≠ 2021) =
      [⟨2022, 100, 0⟩, ⟨2023, 100, 0⟩] ∧
    ((2022 : ℤ) ≠ 2023) ∧
    (computeTrendLine annual7 .tournaments 2026).r_squared = 0 ∧
    (computeTrendLine annual7 .tournaments 2026).r_squared ≠ 1 := by
  have helig : trendEligible annual7 = [⟨2022, 100, 0⟩, ⟨2023, 100, 0⟩] := by
    decide
  have h0 := (computeTrendLine_pair annual7 ⟨2022, 100, 0⟩ ⟨2023, 100, 0⟩
    .tournaments 2026 helig (by decide)).2.2.2 (by decide)
  exact ⟨by decide, by decide, h0, by rw [h0]; norm_num⟩

/-- C7 amended: on an eligible set of exactly two records with distinct
years, `computeTrendLine` reproduces the line through the two points
exactly (the regression value at each year equals the observed metric
value), and `r_squared = 1` provided the two observed metric values
differ; when they coincide `SStot` is 0 and `r_squared` is 0. -/
theorem C7_amended (annualData : List AnnualData) (a b : AnnualData)
    (metric : Metric) (ty : ℤ)
    (hfilter : annualData.filter
      (fun d => d.year ≠ 2020 ∧ d.year ≠ 2021) = [a, b])
    (hyear : a.year ≠ b.year) :
    (computeTrendLine annualData metric ty).slope * (a.year : ℚ) +
      (computeTrendLine annualData metric ty).intercept = metricOf a metric ∧
    (computeTrendLine annualData metric ty).slope * (b.year : ℚ) +
      (computeTrendLine annualData metric ty).intercept = metricOf b metric ∧
    (metricOf a metric ≠ metricOf b metric →
      (computeTrendLine annualData metric ty).r_squared = 1) ∧
    (metricOf a metric = metricOf b metric →
      (computeTrendLine annualData metric ty).r_squared = 0) := by
  rcases trendEligible_pair annualData a b hfilter with h | h
  · exact computeTrendLine_pair annualData a b metric ty h hyear
  · obtain ⟨p1, p2, p3, p4⟩ :=
      computeTrendLine_pair annualData b a metric ty h (Ne.symm hyear)
    exact ⟨p2, p1, fun hne => p3 (Ne.symm hne), fun heq => p4 heq.symm⟩

def annual7b : List AnnualData := [⟨2022, 100, 0⟩, ⟨2023, 120, 0⟩]

/-- Concrete run of C7 amended: two points (2022, 100) and (2023, 120)
with distinct metric values are reproduced exactly with `r_squared = 1`. -/
theorem C7_amended_witness :
    annual7b.filter (fun d => d.year ≠ 2020 ∧ d.year ≠ 2021) =
      [⟨2022, 100, 0⟩, ⟨2023, 120, 0⟩] ∧
    ((2022 : ℤ) ≠ 2023) ∧
    (computeTrendLine annual7b .tournaments 2026).slope * 2022 +
      (computeTrendLine annual7b .tournaments 2026).intercept = 100 ∧
    (computeTrendLine annual7b .tournaments 2026).r_squared = 1 := by
  have h := C7_amended annual7b ⟨2022, 100, 0⟩ ⟨2023, 120, 0⟩ .tournaments 2026
    (by decide) (by decide)
  refine ⟨by decide, by decide, ?_, h.2.2.1 (by decide)⟩
  have h1 := h.1
  norm_num [metricOf] at h1
  exact h1

-- ---------------------------------------------------------------------------
-- C8
-- ---------------------------------------------------------------------------

theorem abs_round2_sub_le (x : ℚ) : |round2 x - x| ≤ 1/200 := by
  have h : |(round (x * 100) : ℚ) - x * 100| ≤ 1/2 := by
    rw [abs_sub_comm]
    exact abs_sub_round (x * 100)
  have hx : round2 x - x = ((round (x * 100) : ℚ) - x * 100) / 100 := by
    unfold round2
    ring
  rw [hx, abs_div, abs_of_pos (show (0:ℚ) < 100 by norm_num)]
  linarith

theorem weightedSum_zero (m : ComponentMap) :
    weightedSum m (⟨0, 0, 0, 0, 0, 0⟩ : ComponentMap) = 0 := by
  unfold weightedSum
  ring

theorem sensitivityOf_total_near (s w : ComponentMap)
    (ht : 0 < (deltasOf s w).total) :
    |(sensitivityOf s w).total - 100| ≤ 3/100 := by
  simp only [sensitivityOf]
  revert ht
  generalize deltasOf s w = d
  intro ht
  obtain ⟨g, a, r, m, dv, y⟩ := d
  unfold ComponentMap.total at ht ⊢
  dsimp only at ht ⊢
  simp only [if_pos ht]
  have htne : g + a + r + m + dv + y ≠ 0 := ne_of_gt ht
  have hsum : g / (g + a + r + m + dv + y) * 100 +
      a / (g + a + r + m + dv + y) * 100 +
      r / (g + a + r + m + dv + y) * 100 +
      m / (g + a + r + m + dv + y) * 100 +
      dv / (g + a + r + m + dv + y) * 100 +
      y / (g + a + r + m + dv + y) * 100 = 100 := by
    field_simp
    ring
  have b1 := abs_le.mp (abs_round2_sub_le (g / (g + a + r + m + dv + y) * 100))
  have b2 := abs_le.mp (abs_round2_sub_le (a / (g + a + r + m + dv + y) * 100))
  have b3 := abs_le.mp (abs_round2_sub_le (r / (g + a + r + m + dv + y) * 100))
  have b4 := abs_le.mp (abs_round2_sub_le (m / (g + a + r + m + dv + y) * 100))
  have b5 := abs_le.mp (abs_round2_sub_le (dv / (g + a + r + m + dv + y) * 100))
  have b6 := abs_le.mp (abs_round2_sub_le (y / (g + a + r + m + dv + y) * 100))
  rw [abs_le]
  constructor
  · linarith [b1.1, b2.1, b3.1, b4.1, b5.1, b6.1]
  · linarith [b1.2, b2.2, b3.2, b4.2, b5.2, b6.2]

theorem sensitivityOf_zero_weights (s : ComponentMap) :
    (deltasOf s ⟨0, 0, 0, 0, 0, 0⟩).total = 0 ∧
    sensitivityOf s ⟨0, 0, 0, 0, 0, 0⟩ = ⟨0, 0, 0, 0, 0, 0⟩ := by
  have hdz : deltasOf s ⟨0, 0, 0, 0, 0, 0⟩ = ⟨0, 0, 0, 0, 0, 0⟩ := by
    unfold deltasOf
    simp [weightedSum_zero]
  refine ⟨by rw [hdz]; norm_num [ComponentMap.total], ?_⟩
  simp only [sensitivityOf, hdz]
  norm_num [ComponentMap.total]

/-- C8: in every `computeHealthScore` result, when the total sensitivity
delta is positive the sensitivity values over all weight keys sum to 100 up
to 2-decimal rounding error (at most 6 half-ulps, 3/100); when every merged
weight is 0 the total delta is 0 and every sensitivity value is exactly 0. -/
theorem C8_sensitivity (input : HealthScoreInput) (v : ℕ)
    (cw : WeightOverrides) (cb : BreakpointOverrides) :
    (0 < (deltasOf
        (componentScoresOf input (mergeBreakpoints DEFAULT_BREAKPOINTS cb))
        (mergeWeights DEFAULT_WEIGHTS cw)).total →
      |((computeHealthScore input v cw cb).sensitivity).total - 100| ≤ 3/100) ∧
    (mergeWeights DEFAULT_WEIGHTS cw = ⟨0, 0, 0, 0, 0, 0⟩ →
      (deltasOf
        (componentScoresOf input (mergeBreakpoints DEFAULT_BREAKPOINTS cb))
        (mergeWeights DEFAULT_WEIGHTS cw)).total = 0 ∧
      (computeHealthScore input v cw cb).sensitivity = ⟨0, 0, 0, 0, 0, 0⟩) := by
  have hsens : (computeHealthScore input v cw cb).sensitivity =
      sensitivityOf
        (componentScoresOf input (mergeBreakpoints DEFAULT_BREAKPOINTS cb))
        (mergeWeights DEFAULT_WEIGHTS cw) := rfl
  constructor
  · intro ht
    rw [hsens]
    exact sensitivityOf_total_near _ _ ht
  · intro hzw
    rw [hsens, hzw]
    exact sensitivityOf_zero_weights _

def input0 : HealthScoreInput := ⟨20, 20, 25, 50, [], 90, 0, 30⟩

def noW : WeightOverrides := ⟨none, none, none, none, none, none⟩

def noB : BreakpointOverrides := ⟨none, none, none, none, none, none⟩

def zeroW : WeightOverrides :=
  ⟨some 0, some 0, some 0, some 0, some 0, some 0⟩

/-- Concrete run of C8: under the default configuration the total delta of
`input0` is positive, so the sensitivities sum to 100 within 3/100, while
all-zero weight overrides force an all-zero sensitivity map. -/
theorem C8_sensitivity_witness :
    0 < (deltasOf
      (componentScoresOf input0 (mergeBreakpoints DEFAULT_BREAKPOINTS noB))
      (mergeWeights DEFAULT_WEIGHTS noW)).total ∧
    |((computeHealthScore input0 1 noW noB).sensitivity).total - 100| ≤ 3/100 ∧
    mergeWeights DEFAULT_WEIGHTS zeroW = ⟨0, 0, 0, 0, 0, 0⟩ ∧
    (computeHealthScore input0 1 zeroW noB).sensitivity = ⟨0, 0, 0, 0, 0, 0⟩ := by
  have hsc : componentScoresOf input0
      (mergeBreakpoints DEFAULT_BREAKPOINTS noB) =
      ⟨100, 100, 100, 50, 0, 100⟩ := by
    norm_num [componentScoresOf, rawValues, mergeBreakpoints,
      DEFAULT_BREAKPOINTS, noB, input0, interpolate, lerpLoop, clamp,
      List.getLast]
  have hwd : mergeWeights DEFAULT_WEIGHTS noW = DEFAULT_WEIGHTS := rfl
  have ht : 0 < (deltasOf
      (componentScoresOf input0 (mergeBreakpoints DEFAULT_BREAKPOINTS noB))
      (mergeWeights DEFAULT_WEIGHTS noW)).total := by
    rw [hsc, hwd]
    norm_num [deltasOf, weightedSum, ComponentMap.total, DEFAULT_WEIGHTS]
    positivity
  have hzw : mergeWeights DEFAULT_WEIGHTS zeroW = ⟨0, 0, 0, 0, 0, 0⟩ := rfl
  exact ⟨ht, (C8_sensitivity input0 1 noW noB).1 ht, hzw,
    ((C8_sensitivity input0 1 zeroW noB).2 hzw).2⟩

-- ---------------------------------------------------------------------------
-- C4
-- ---------------------------------------------------------------------------

/-- The claim's interval shape: 68% band `round(proj × (c ± dev))` and 95%
band `round(proj × (c ± 2·dev))`, as the tuple (68 low, 68 high, 95 low,
95 high). -/
noncomputable def bandAround (proj : ℚ) (c dev : ℝ) : ℤ × ℤ × ℤ × ℤ :=
  (round ((proj : ℝ) * (c - dev)), round ((proj : ℝ) * (c + dev)),
   round ((proj : ℝ) * (c - 2 * dev)), round ((proj : ℝ) * (c + 2 * dev)))

/-- C4: in the non-suppressed path, with at least 2 qualifying back-test
years the tournament bands are `round(projection × (ratioMean ±
ratioStdDev))` and `round(projection × (ratioMean ± 2·ratioStdDev))` using
the population standard deviation of the back-test ratios; with fewer than
2 they fall back to `round(projection × (1 ± u))` and `round(projection ×
(1 ± 2u))` where `u` is the root-sum-of-squares of the first
`completedMonths` weight standard deviations over the cumulative
tournament weight; entries follow the same two-tier logic with their own
ratios, but their fallback reuses the tournament-derived `u`. -/
theorem C4_forecast_ci (ytdT ytdE : ℚ) (cm : ℕ) (mw : MonthlyWeights)
    (annualData : List AnnualData) (monthlyData : List MonthlyData) (ty : ℤ)
    (h2 : 2 ≤ cm)
    (ht : 1/1000 ≤ (mw.tournament_weights.take cm).sum)
    (he : 1/1000 ≤ (mw.entry_weights.take cm).sum) :
    (2 ≤ (tournamentRatios annualData monthlyData cm
        ((mw.tournament_weights.take cm).sum) ty).length →
      ((computeForecast ytdT ytdE cm mw annualData monthlyData ty).ci_68_low_tournaments,
       (computeForecast ytdT ytdE cm mw annualData monthlyData ty).ci_68_high_tournaments,
       (computeForecast ytdT ytdE cm mw annualData monthlyData ty).ci_95_low_tournaments,
       (computeForecast ytdT ytdE cm mw annualData monthlyData ty).ci_95_high_tournaments) =
        bandAround (ytdT / (mw.tournament_weights.take cm).sum)
          ((mean (tournamentRatios annualData monthlyData cm
            ((mw.tournament_weights.take cm).sum) ty) : ℚ) : ℝ)
          (stddev (tournamentRatios annualData monthlyData cm
            ((mw.tournament_weights.take cm).sum) ty))) ∧
    ((tournamentRatios annualData monthlyData cm
        ((mw.tournament_weights.take cm).sum) ty).length < 2 →
      ((computeForecast ytdT ytdE cm mw annualData monthlyData ty).ci_68_low_tournaments,
       (computeForecast ytdT ytdE cm mw annualData monthlyData ty).ci_68_high_tournaments,
       (computeForecast ytdT ytdE cm mw annualData monthlyData ty).ci_95_low_tournaments,
       (computeForecast ytdT ytdE cm mw annualData monthlyData ty).ci_95_high_tournaments) =
        bandAround (ytdT / (mw.tournament_weights.take cm).sum) 1
          (relativeUncertainty mw cm ((mw.tournament_weights.take cm).sum))) ∧
    (2 ≤ (entryRatios annualData monthlyData cm
        ((mw.entry_weights.take cm).sum) ty).length →
      ((computeForecast ytdT ytdE cm mw annualData monthlyData ty).ci_68_low_entries,
       (computeForecast ytdT ytdE cm mw annualData monthlyData ty).ci_68_high_entries,
       (computeForecast ytdT ytdE cm mw annualData monthlyData ty).ci_95_low_entries,
       (computeForecast ytdT ytdE cm mw annualData monthlyData ty).ci_95_high_entries) =
        bandAround (ytdE / (mw.entry_weights.take cm).sum)
          ((mean (entryRatios annualData monthlyData cm
            ((mw.entry_weights.take cm).sum) ty) : ℚ) : ℝ)
          (stddev (entryRatios annualData monthlyData cm
            ((mw.entry_weights.take cm).sum) ty))) ∧
    ((entryRatios annualData monthlyData cm
        ((mw.entry_weights.take cm).sum) ty).length < 2 →
      ((computeForecast ytdT ytdE cm mw annualData monthlyData ty).ci_68_low_entries,
       (computeForecast ytdT ytdE cm mw annualData monthlyData ty).ci_68_high_entries,
       (computeForecast ytdT ytdE cm mw annualData monthlyData ty).ci_95_low_entries,
       (computeForecast ytdT ytdE cm mw annualData monthlyData ty).ci_95_high_entries) =
        bandAround (ytdE / (mw.entry_weights.take cm).sum) 1
          (relativeUncertainty mw cm ((mw.tournament_weights.take cm).sum))) := by
  have hn2 : ¬ cm < 2 := Nat.not_lt.mpr h2
  have hnw : ¬ ((mw.tournament_weights.take cm).sum < 1/1000 ∨
      (mw.entry_weights.take cm).sum < 1/1000) :=
    not_or.mpr ⟨not_lt.mpr ht, not_lt.mpr he⟩
  refine ⟨?_, ?_, ?_, ?_⟩ <;> intro hlen <;>
    unfold computeForecast <;> rw [if_neg hn2, if_neg hnw] <;> dsimp only
  · rw [if_pos hlen]
    rfl
  · rw [if_neg (not_le.mpr hlen)]
    rfl
  · rw [if_pos hlen]
    rfl
  · rw [if_neg (not_le.mpr hlen)]
    rfl

def annual4 : List AnnualData := [⟨2018, 100, 200⟩, ⟨2019, 100, 200⟩]

def monthly4 : List MonthlyData :=
  [⟨2018, 1, 10⟩, ⟨2018, 2, 10⟩, ⟨2019, 1, 10⟩, ⟨2019, 2, 10⟩]

noncomputable def mw4 : MonthlyWeights := ⟨[1/4, 1/4], [1/4, 1/4], [0, 0]⟩

/-- Concrete run of C4: two identical back-test years give ratios
[5/2, 5/2] with zero spread, so the 68% lower tournament bound is
round(224 × 5/2) = 560. -/
theorem C4_forecast_ci_witness :
    2 ≤ 2 ∧
    (1 : ℚ)/1000 ≤ (mw4.tournament_weights.take 2).sum ∧
    (1 : ℚ)/1000 ≤ (mw4.entry_weights.take 2).sum ∧
    2 ≤ (tournamentRatios annual4 monthly4 2
      ((mw4.tournament_weights.take 2).sum) 2026).length ∧
    (computeForecast 112 56 2 mw4 annual4 monthly4 2026).ci_68_low_tournaments
      = 560 := by
  have hsum : (mw4.tournament_weights.take 2).sum = 1/2 := by norm_num [mw4]
  have htR : tournamentRatios annual4 monthly4 2
      ((mw4.tournament_weights.take 2).sum) 2026 = [5/2, 5/2] := by
    rw [hsum]
    norm_num [tournamentRatios, backTestYears, annualLookup, monthlyLookup,
      hasMonthlyData, monthCounts, annual4, monthly4, List.filterMap_cons,
      List.filter, List.range_succ]
  have hlen : 2 ≤ (tournamentRatios annual4 monthly4 2
      ((mw4.tournament_weights.take 2).sum) 2026).length := by
    rw [htR]
    norm_num
  have hband := ((C4_forecast_ci 112 56 2 mw4 annual4 monthly4 2026
    (le_refl 2) (by norm_num [mw4]) (by norm_num [mw4])).1 hlen)
  have hfirst := congrArg Prod.fst hband
  dsimp only at hfirst
  refine ⟨le_refl 2, by norm_num [mw4], by norm_num [mw4], hlen, ?_⟩
  rw [hfirst, htR, hsum]
  have hmean : mean [(5 : ℚ)/2, 5/2] = 5/2 := by norm_num [mean]
  have hvar : variancePop [(5 : ℚ)/2, 5/2] = 0 := by
    norm_num [variancePop, mean]
  have hstd : stddev [(5 : ℚ)/2, 5/2] = 0 := by
    rw [stddev, if_neg (by norm_num), hvar]
    push_cast
    exact Real.sqrt_zero
  rw [hmean, hstd]
  unfold bandAround
  dsimp only
  have harg : ((112 / (1/2) : ℚ) : ℝ) * (((5/2 : ℚ) : ℝ) - 0) =
      ((560 : ℤ) : ℝ) := by
    push_cast
    norm_num
  rw [harg, round_intCast]

end IFPA
